import Mathlib

/-!
Verification of the document-processing core of the genhealth backend
(`app/services/unified_document_processor.py`), shallowly embedded in Lean.

Python `dict`/`None` conventions are modelled with `Option`; Python string
truthiness (`if s:`) is non-`None` and non-empty; floats are modelled as
rationals since every score in the pipeline is a small decimal constant.
External effects (PDF backends, the OCR engine, the reasoning service and
the wall clock) are parameters of the model: each run is a pure function of
the document-independent stubs describing their behaviour.
-/

namespace DocProc

/-- The three extracted patient fields (`first_name`, `last_name`,
`date_of_birth` keys of the Python result dicts); `none` models `None`. -/
structure PatientInfo where
  first_name : Option String
  last_name : Option String
  date_of_birth : Option String
deriving DecidableEq, Repr

/-- Python truthiness of an optional string field: `None` and `""` are falsy. -/
def truthy : Option String → Bool
  | none => false
  | some s => !s.isEmpty

/-- ASCII lowercasing of one character, the fragment of Python `str.lower`
exercised by the patterns here. -/
def lowerChar (c : Char) : Char :=
  if 'A' ≤ c ∧ c ≤ 'Z' then Char.ofNat (c.toNat + 32) else c

/-- Model of Python `str.lower` on ASCII text. -/
def pyLower (s : String) : String := String.mk (s.data.map lowerChar)

/-- Python `str.strip` whitespace test. -/
def isPyWs (c : Char) : Bool :=
  c = ' ' || c = '\t' || c = '\n' || c = '\r' || c = '\x0b' || c = '\x0c'

/-- Strip leading and trailing whitespace from a character list. -/
def stripChars (l : List Char) : List Char :=
  ((l.dropWhile isPyWs).reverse.dropWhile isPyWs).reverse

/-- Model of Python `str.strip()`. -/
def pyStrip (s : String) : String := String.mk (stripChars s.data)

/-- Split a character list on a separator, Python `str.split(sep)` style:
the empty input gives one empty field, adjacent separators give empty
fields. -/
def splitChars (sep : Char) : List Char → List (List Char)
  | [] => [[]]
  | c :: rest =>
    match splitChars sep rest with
    | [] => [[]]
    | h :: t => if c = sep then [] :: h :: t else (c :: h) :: t

/-- Model of Python `str.split(sep)` for a one-character separator. -/
def pySplit (sep : Char) (s : String) : List String :=
  (splitChars sep s.data).map String.mk

/-- Boolean substring test on character lists. -/
def containsSub (pat l : List Char) : Bool :=
  decide (List.IsInfix pat l)

/-- `re.search(r'\d|person|number|id', last_name.lower())` from
`_calculate_confidence`: the lowercased name contains a digit or one of the
literal substrings. -/
def lastNameArtifact (s : String) : Bool :=
  let l := (pyLower s).data
  l.any Char.isDigit || containsSub "person".data l
    || containsSub "number".data l || containsSub "id".data l

/-- `DocumentProcessor._calculate_confidence`. The argument is the
`patient_info` dict; `none` models a falsy (`None`/empty) dict, `some`
a dict holding the three keys. -/
def calcConfidence (patient_info : Option PatientInfo) : ℚ :=
  match patient_info with
  | none => 0
  | some info =>
    let score : ℚ := 0
    let score := if truthy info.first_name then score + 4/10 else score
    let score :=
      if truthy info.last_name then
        let score := score + 4/10
        let last_name := info.last_name.getD ""
        if !lastNameArtifact last_name then score + 1/10 else score
      else score
    let score := if truthy info.date_of_birth then score + 2/10 else score
    min score 1

/-- The spec's additive rubric, stated from its words: 0.4 for a present
first name, 0.4 for a present last name, an extra 0.1 when the last name is
present and free of digits and of the substrings "person"/"number"/"id"
(case-insensitively), 0.2 for a present date of birth, clamped to 1.0. -/
def rubricScore (p : PatientInfo) : ℚ :=
  min ((if truthy p.first_name then (4:ℚ)/10 else 0)
    + (if truthy p.last_name then (4:ℚ)/10 else 0)
    + (if truthy p.last_name && !lastNameArtifact (p.last_name.getD "") then (1:ℚ)/10 else 0)
    + (if truthy p.date_of_birth then (2:ℚ)/10 else 0)) 1

/-- Value of a non-empty all-digit character list. -/
def digitsVal (l : List Char) : Option Nat :=
  if l ≠ [] ∧ l.all Char.isDigit then
    some (l.foldl (fun acc c => acc * 10 + (c.toNat - '0'.toNat)) 0)
  else none

/-- Model of Python `int()` restricted to its behaviour on the trimmed
sign-and-decimal-digit strings arising here: `none` models `ValueError`. -/
def pyInt (s : String) : Option Int :=
  match stripChars s.data with
  | '-' :: rest => (digitsVal rest).map (fun n => -(n : Int))
  | '+' :: rest => (digitsVal rest).map (fun n => (n : Int))
  | l => (digitsVal l).map (fun n => (n : Int))

/-- `DocumentProcessor._is_valid_date_format`: split on `/`, require
exactly three integer fields, then test the (month, day, year) orientation
when the third field has length 4 and the (year, month, day) orientation
when the first does. A failed `int()` conversion is the caught
`ValueError`, yielding `False`. -/
def isValidDateFormat (date_str : String) : Bool :=
  match pySplit '/' date_str with
  | [p0, p1, p2] =>
    match pyInt p0, pyInt p1, pyInt p2 with
    | some n0, some n1, some n2 =>
      if p2.length = 4 ∧ 1 ≤ n0 ∧ n0 ≤ 12 ∧ 1 ≤ n1 ∧ n1 ≤ 31 ∧ 1900 ≤ n2 ∧ n2 ≤ 2030 then
        true
      else if p0.length = 4 ∧ 1900 ≤ n0 ∧ n0 ≤ 2030 ∧ 1 ≤ n1 ∧ n1 ≤ 12 ∧ 1 ≤ n2 ∧ n2 ≤ 31 then
        true
      else false
    | _, _, _ => false
  | _ => false

/-- The separator normalization in `_extract_date_of_birth`: the `re.sub`
that rewrites each `-` and each `/` character to `/`. -/
def normalizeDateSeparators (s : String) : String :=
  String.mk (s.data.map fun c => if c = '-' ∨ c = '/' then '/' else c)

/-- The date-plausibility acceptance condition as the spec words it:
exactly three `/`-separated integer fields, and either the third field has
length 4 with (month, day, year) ranges satisfied, or the first field has
length 4 with (year, month, day) ranges satisfied. -/
def DateSpecAccepted (s : String) : Prop :=
  ∃ p0 p1 p2 n0 n1 n2, pySplit '/' s = [p0, p1, p2]
    ∧ pyInt p0 = some n0 ∧ pyInt p1 = some n1 ∧ pyInt p2 = some n2
    ∧ ((p2.length = 4 ∧ 1 ≤ n0 ∧ n0 ≤ 12 ∧ 1 ≤ n1 ∧ n1 ≤ 31 ∧ 1900 ≤ n2 ∧ n2 ≤ 2030)
      ∨ (p0.length = 4 ∧ 1900 ≤ n0 ∧ n0 ≤ 2030 ∧ 1 ≤ n1 ∧ n1 ≤ 12 ∧ 1 ≤ n2 ∧ n2 ≤ 31))

/-- One per-field judgment parsed from the reasoning-service JSON
(`validation_results.<field>`); `none` components model absent keys, read
through `dict.get` defaults in the source. -/
structure FieldValidation where
  is_valid : Option Bool := none
  confidence : Option ℚ := none
  issues : List String := []
  corrected_value : Option String := none
deriving DecidableEq, Repr

/-- The `validation_results` dict: per-field entries may be absent. -/
structure ValidationResults where
  first_name : Option FieldValidation := none
  last_name : Option FieldValidation := none
  date_of_birth : Option FieldValidation := none
deriving DecidableEq, Repr

/-- The `overall_validation` dict parsed from the reasoning service. -/
structure OverallValidation where
  overall_confidence : Option ℚ := none
  data_quality_score : Option ℚ := none
  validation_summary : Option String := none
  recommendations : List String := []
deriving DecidableEq, Repr

/-- A successfully `json.loads`-parsed validation response: the two
top-level keys, either possibly absent. -/
structure ParsedValidation where
  validation_results : Option ValidationResults := none
  overall_validation : Option OverallValidation := none
deriving DecidableEq, Repr

/-- One entry of `validation_summary["corrections_applied"]`. -/
structure CorrectionApplied where
  field : String
  original : Option String
  corrected : Option String
  reason : List String
deriving DecidableEq, Repr

/-- The `validation_summary` dict assembled by
`_ai_validate_extracted_data` (its `validation_performed` key is always
`True`, so it is kept implicit). -/
structure ValidationSummaryS where
  validation_results : ValidationResults
  overall_validation : OverallValidation
  corrections_applied : List CorrectionApplied
deriving DecidableEq, Repr

/-- The hard-coded per-field entry of the fallback `validation_result`
synthesized when `json.loads` fails. -/
def fallbackFieldResult : FieldValidation where
  is_valid := some true
  confidence := some (1/2)
  issues := ["Unable to validate due to parsing error"]

/-- The hard-coded fallback `validation_result` synthesized when
`json.loads` fails (the `except json.JSONDecodeError` branch). -/
def fallbackValidationResult : ParsedValidation where
  validation_results := some
    { first_name := some fallbackFieldResult,
      last_name := some fallbackFieldResult,
      date_of_birth := some fallbackFieldResult }
  overall_validation := some
    { overall_confidence := some (1/2), data_quality_score := some (1/2),
      validation_summary := some "Validation failed due to response parsing error",
      recommendations := ["Manual review recommended due to validation error"] }

/-- The `validation_summary` that results from the fallback
`validation_result` (no correction is applied, since the fallback carries
no `corrected_value` keys). -/
def fallbackSummary : ValidationSummaryS where
  validation_results :=
    { first_name := some fallbackFieldResult,
      last_name := some fallbackFieldResult,
      date_of_birth := some fallbackFieldResult }
  overall_validation :=
    { overall_confidence := some (1/2), data_quality_score := some (1/2),
      validation_summary := some "Validation failed due to response parsing error",
      recommendations := ["Manual review recommended due to validation error"] }
  corrections_applied := []

/-- The per-field correction test of `_ai_validate_extracted_data`:
`if corrected_value and corrected_value != patient_info.get(field)`, i.e.
the suggested value is truthy and differs from the original. -/
def fieldCorrection (orig : Option String) (fv : FieldValidation) : Option String :=
  match fv.corrected_value with
  | some cv => if cv ≠ "" ∧ some cv ≠ orig then some cv else none
  | none => none

/-- The reasoning-service behaviour for one validation call: `.error`
models an exception from the call (caught, yielding `None`), `.ok none` a
response whose body `json.loads` cannot parse, `.ok (some v)` a parsed
response `v`. -/
abbrev ValidationCallOutcome := Except Unit (Option ParsedValidation)

/-- `DocumentProcessor._ai_validate_extracted_data`, as a function of the
capability flag, the stubbed service-call outcome and the candidate
`patient_info` (`none` models a falsy dict). Returns the pair
(`corrected_patient_info`, `validation_summary`), or `none` where the
source returns `None`. -/
def aiValidateExtractedData (enable_ai : Bool) (svcOutcome : ValidationCallOutcome)
    (patient_info : Option PatientInfo) : Option (PatientInfo × ValidationSummaryS) :=
  if !enable_ai then none
  else
    match patient_info with
    | none => none
    | some info =>
      match svcOutcome with
      | .error _ => none
      | .ok parsed =>
        let validation_result := parsed.getD fallbackValidationResult
        let vres := validation_result.validation_results.getD {}
        let mkCorr : String → Option String → FieldValidation →
            Option String × List CorrectionApplied := fun fieldName orig fv =>
          match fieldCorrection orig fv with
          | some cv => (some cv, [⟨fieldName, orig, some cv, fv.issues⟩])
          | none => (orig, [])
        let (fn, c1) := mkCorr "first_name" info.first_name (vres.first_name.getD {})
        let (ln, c2) := mkCorr "last_name" info.last_name (vres.last_name.getD {})
        let (db, c3) := mkCorr "date_of_birth" info.date_of_birth (vres.date_of_birth.getD {})
        some (⟨fn, ln, db⟩,
          { validation_results := vres,
            overall_validation := validation_result.overall_validation.getD {},
            corrections_applied := c1 ++ c2 ++ c3 })

/-- The observable behaviour of the three extraction backends on one input:
for each of the two PDF text backends, the page texts appended to the
shared accumulator before the loop finished or raised (`…Ok` is false when
the backend raised), and for OCR either the returned text or the raised
exception message. -/
structure BackendOutcome where
  pdfplumberPages : List String
  pdfplumberOk : Bool
  pypdf2Pages : List String
  pypdf2Ok : Bool
  ocrOutcome : Except String String

/-- The per-page accumulation `text += page_text + "\n"` guarded by
`if page_text:` in `_extract_text_from_pdf`. -/
def appendPages (init : String) (pages : List String) : String :=
  pages.foldl
    (fun text page_text =>
      if !page_text.isEmpty then text ++ page_text ++ "\n" else text)
    init

/-- The two `ValueError`s `_extract_text_from_pdf` can raise: the plain
one, and the one carrying the Tesseract installation hint. -/
inductive ExtractError where
  | generic
  | ocrHint
deriving DecidableEq, Repr

/-- Rendering of the raised `ValueError` messages (the hint message is
abbreviated; no claim depends on its exact wording). -/
def errorMessage : ExtractError → String
  | .generic => "Could not extract text from PDF"
  | .ocrHint =>
    "Could not extract text from PDF. This appears to be an image-based PDF that requires OCR. Please install Tesseract OCR."

/-- `DocumentProcessor._extract_text_from_pdf`: try pdfplumber, PyPDF2 and
OCR in order over one shared `text` accumulator, returning the first
result whose stripped text is non-empty together with the method tag. The
accumulator is reset only by the OCR assignment, never between the first
two backends. -/
def extractTextFromPdf (b : BackendOutcome) : Except ExtractError (String × String) :=
  let text := appendPages "" b.pdfplumberPages
  if b.pdfplumberOk ∧ !(pyStrip text).isEmpty then .ok (text, "pdfplumber")
  else
    let text := appendPages text b.pypdf2Pages
    if b.pypdf2Ok ∧ !(pyStrip text).isEmpty then .ok (text, "pypdf2")
    else
      match b.ocrOutcome with
      | .ok ocrText =>
        if !(pyStrip ocrText).isEmpty then .ok (ocrText, "tesseract")
        else .error .generic
      | .error e =>
        if containsSub "tesseract".data (pyLower e).data then .error .ocrHint
        else if (pyStrip text).isEmpty then .error .generic
        else .ok (text, "none")

/-- The escalation stages of `process_document` that involve the
reasoning service: the initial validation call, the AI text reanalysis and
the AI vision reanalysis. -/
inductive EscStep where
  | validated
  | textReanalysis
  | visionReanalysis
deriving DecidableEq, Repr

/-- State after the AI block of `process_document`: the candidate, its
confidence, the provenance string, the latest validation summary and the
ordered list of reasoning-service stages that were attempted. -/
structure AIPhaseOut where
  final_result : PatientInfo
  final_confidence : ℚ
  final_method : String
  validation_summary : Option ValidationSummaryS
  trace : List EscStep

/-- Lines 240-241 of `process_document`:
`overall_validation.get("data_quality_score", final_confidence)` where
`overall_validation` is the summary's dict, or `{}` with no summary. -/
def dataQualityScore (validation_summary : Option ValidationSummaryS)
    (final_confidence : ℚ) : ℚ :=
  ((match validation_summary with
    | some vs => vs.overall_validation
    | none => {}).data_quality_score).getD final_confidence

/-- Step 3 of `process_document`: run `_ai_validate_extracted_data` on the
OCR candidate; when it returns a result, adopt the corrected fields and
recompute the confidence as `max(corrected_confidence, final_confidence)`;
otherwise keep the OCR candidate untouched. Returns (candidate,
confidence, method, summary). -/
def validationStep (enable_ai : Bool) (valSvc : PatientInfo → ValidationCallOutcome)
    (ocr_result : PatientInfo) (ocr_method : String) :
    PatientInfo × ℚ × String × Option ValidationSummaryS :=
  let final_confidence := calcConfidence (some ocr_result)
  match aiValidateExtractedData enable_ai (valSvc ocr_result) (some ocr_result) with
  | some (corrected_info, vs) =>
    (corrected_info, max (calcConfidence (some corrected_info)) final_confidence,
      "ocr_" ++ ocr_method ++ "_ai_validated", some vs)
  | none => (ocr_result, final_confidence, "ocr_" ++ ocr_method, none)

/-- All pipeline inputs that are external to the document bytes: backend
behaviours, the two pattern extractors applied to the extracted text, the
AI flags, and the stubbed reasoning-service outcomes for validation calls
(keyed by the candidate being validated), text reanalysis and vision
reanalysis (`none` models a call that was disabled, raised, or failed to
parse). -/
structure Env where
  backends : BackendOutcome
  extractName : String → Option String × Option String
  extractDob : String → Option String
  enable_ai : Bool
  use_ai : Option Bool
  valSvc : PatientInfo → ValidationCallOutcome
  textAnalysisResult : Option PatientInfo
  visionAnalysisResult : Option PatientInfo

/-- The `data_quality_score` that gates escalation for one document run:
the score reported by the initial validation step when one is available,
else the post-validation confidence. -/
def pipelineQuality (env : Env) (ocr_result : PatientInfo) (ocr_method : String) : ℚ :=
  dataQualityScore (validationStep env.enable_ai env.valSvc ocr_result ocr_method).2.2.2
    (validationStep env.enable_ai env.valSvc ocr_result ocr_method).2.1

/-- The `elif data_quality_score < 0.6` vision branch of
`process_document`: attempt `_ai_vision_analysis`, adopt its result only
if strictly more confident, then revalidate the adopted result to refresh
the summary. -/
def visionStep (env : Env) (final_result : PatientInfo) (final_confidence : ℚ)
    (final_method : String) (validation_summary : Option ValidationSummaryS)
    (data_quality_score : ℚ) : AIPhaseOut :=
  if data_quality_score < 6/10 then
    match env.visionAnalysisResult with
    | some vision_result =>
      if calcConfidence (some vision_result) > final_confidence then
        { final_result := vision_result,
          final_confidence := calcConfidence (some vision_result),
          final_method := "ai_vision_enhanced",
          validation_summary :=
            match aiValidateExtractedData env.enable_ai (env.valSvc vision_result)
                (some vision_result) with
            | some (_, vsum) => some vsum
            | none => validation_summary,
          trace := [.validated, .textReanalysis, .visionReanalysis] }
      else
        ⟨final_result, final_confidence, final_method, validation_summary,
          [.validated, .textReanalysis, .visionReanalysis]⟩
    | none =>
      ⟨final_result, final_confidence, final_method, validation_summary,
        [.validated, .textReanalysis, .visionReanalysis]⟩
  else
    ⟨final_result, final_confidence, final_method, validation_summary,
      [.validated, .textReanalysis]⟩

/-- The whole AI block of `process_document` (steps 3 and 4): initial
validation, then, when the data-quality score is below 0.7, text
reanalysis (adopt only if strictly more confident, then revalidate), and
otherwise-when below 0.6 the vision branch. -/
def aiPhase (env : Env) (ocr_result : PatientInfo) (ocr_method : String) : AIPhaseOut :=
  let v := validationStep env.enable_ai env.valSvc ocr_result ocr_method
  let final_result := v.1
  let final_confidence := v.2.1
  let final_method := v.2.2.1
  let validation_summary := v.2.2.2
  let data_quality_score := dataQualityScore validation_summary final_confidence
  if data_quality_score < 7/10 then
    match env.textAnalysisResult with
    | some ai_result =>
      if calcConfidence (some ai_result) > final_confidence then
        { final_result := ai_result,
          final_confidence := calcConfidence (some ai_result),
          final_method := "ai_text_enhanced",
          validation_summary :=
            match aiValidateExtractedData env.enable_ai (env.valSvc ai_result)
                (some ai_result) with
            | some (_, vsum) => some vsum
            | none => validation_summary,
          trace := [.validated, .textReanalysis] }
      else
        visionStep env final_result final_confidence final_method validation_summary
          data_quality_score
    | none =>
      visionStep env final_result final_confidence final_method validation_summary
        data_quality_score
  else
    ⟨final_result, final_confidence, final_method, validation_summary, [.validated]⟩

/-- The dict returned by `process_document` (`ai_validation` is the
optional validation-summary key). The two clock-derived fields are fed in
as explicit inputs of the model. -/
structure ProcessingResult where
  success : Bool
  message : String
  patient_info : Option PatientInfo
  extracted_text : Option String
  processing_time_ms : Int
  extraction_method : String
  confidence_score : ℚ
  timestamp : Nat
  ai_validation : Option ValidationSummaryS
deriving DecidableEq, Repr

/-- `DocumentProcessor.process_document` on one document, as a function of
the environment and of the two clock readings it embeds in its response;
also returns the list of reasoning-service stages attempted. The only
exception the `try` block can see is the extraction `ValueError` (every AI
helper catches its own), so the `except` branch is exactly the
extraction-failure case. -/
def processDocument (env : Env) (elapsed_ms : Int) (ts : Nat) :
    ProcessingResult × List EscStep :=
  match extractTextFromPdf env.backends with
  | .error e =>
    ({ success := false,
       message := "Failed to process document: " ++ errorMessage e,
       patient_info := none, extracted_text := none,
       processing_time_ms := elapsed_ms, extraction_method := "error",
       confidence_score := 0, timestamp := ts, ai_validation := none }, [])
  | .ok (text, ocr_method) =>
    let nm := env.extractName text
    let date_of_birth := env.extractDob text
    let ocr_result : PatientInfo := ⟨nm.1, nm.2, date_of_birth⟩
    let use_ai_for_this_call := env.use_ai.getD env.enable_ai
    let out :=
      if use_ai_for_this_call && env.enable_ai then
        aiPhase env ocr_result ocr_method
      else
        ⟨ocr_result, calcConfidence (some ocr_result), "ocr_" ++ ocr_method, none, []⟩
    ({ success := true,
       message := "Document processed successfully",
       patient_info := some out.final_result,
       extracted_text := some (if text.length > 500 then text.take 500 ++ "..." else text),
       processing_time_ms := elapsed_ms,
       extraction_method := out.final_method,
       confidence_score := out.final_confidence,
       timestamp := ts,
       ai_validation := out.validation_summary }, out.trace)

end DocProc

namespace DocProc

/-- C1: the scorer equals the spec's additive rubric and always lies in
[0, 1]. The score is 0.4 for a present first name, 0.4 for a present last
name, plus 0.1 when that last name has no digit and none of the substrings
"person"/"number"/"id" case-insensitively, plus 0.2 for a present date of
birth, clamped to at most 1. -/
theorem calcConfidence_eq_rubric_and_bounded (p : PatientInfo) :
    calcConfidence (some p) = rubricScore p
      ∧ 0 ≤ calcConfidence (some p) ∧ calcConfidence (some p) ≤ 1 := by
  refine ⟨?_, ?_, ?_⟩
  · unfold calcConfidence rubricScore
    cases hf : truthy p.first_name <;>
      cases hl : truthy p.last_name <;>
        cases hd : truthy p.date_of_birth <;>
          cases ha : lastNameArtifact (p.last_name.getD "") <;>
            simp [hf, hl, hd, ha]
  · unfold calcConfidence
    cases hf : truthy p.first_name <;>
      cases hl : truthy p.last_name <;>
        cases hd : truthy p.date_of_birth <;>
          cases ha : lastNameArtifact (p.last_name.getD "") <;>
            norm_num [hf, hl, hd, ha]
  · unfold calcConfidence
    cases hf : truthy p.first_name <;>
      cases hl : truthy p.last_name <;>
        cases hd : truthy p.date_of_birth <;>
          cases ha : lastNameArtifact (p.last_name.getD "") <;>
            norm_num [hf, hl, hd, ha]

/-- C5: when the reasoning service answers but its body cannot be parsed
(`.ok none`), `_ai_validate_extracted_data` neither raises nor returns
`None`: it returns the candidate unchanged together with the synthesized
degraded summary, whose three per-field results all have `is_valid = true`
and `confidence = 0.5` with an issue noting the parse failure, and whose
`overall_validation.data_quality_score` is 0.5 with a manual-review
recommendation and no corrections applied. -/
theorem parseFailure_degraded_summary (info : PatientInfo) :
    aiValidateExtractedData true (.ok none) (some info) = some (info, fallbackSummary)
      ∧ fallbackSummary.validation_results.first_name = some fallbackFieldResult
      ∧ fallbackSummary.validation_results.last_name = some fallbackFieldResult
      ∧ fallbackSummary.validation_results.date_of_birth = some fallbackFieldResult
      ∧ fallbackFieldResult.is_valid = some true
      ∧ fallbackFieldResult.confidence = some (1/2)
      ∧ fallbackFieldResult.issues = ["Unable to validate due to parsing error"]
      ∧ fallbackSummary.overall_validation.data_quality_score = some (1/2)
      ∧ fallbackSummary.overall_validation.recommendations
          = ["Manual review recommended due to validation error"]
      ∧ fallbackSummary.corrections_applied = [] :=
  ⟨rfl, rfl, rfl, rfl, rfl, rfl, rfl, rfl, rfl, rfl⟩

/-- C8 counterexample: with the capability enabled and a candidate dict
whose three fields are all `None` (entirely empty fields), the validation
call does not return `None` — the dict itself is truthy, so the early
`if not self.enable_ai or not patient_info` return is not taken,
contradicting the claim that entirely-empty input fields yield `null`. -/
theorem aiValidate_emptyFields_not_none :
    aiValidateExtractedData true (.ok (some {})) (some ⟨none, none, none⟩) ≠ none := by
  decide

/-- C8 (amended): `_ai_validate_extracted_data` returns `None` exactly
when the capability is disabled, the candidate dict itself is falsy
(`None`/empty), or the service call raises; a candidate dict carrying
three `None` fields is still sent to the service. -/
theorem aiValidate_none_iff (enable_ai : Bool) (svcOutcome : ValidationCallOutcome)
    (patient_info : Option PatientInfo) :
    aiValidateExtractedData enable_ai svcOutcome patient_info = none
      ↔ (enable_ai = false ∨ patient_info = none ∨ svcOutcome = .error ()) := by
  cases enable_ai <;> cases patient_info <;> rcases svcOutcome with u | parsed <;>
    simp [aiValidateExtractedData]

/-- C2: whenever the validation call returns a result, the confidence
after the validation step equals
`max(corrected_confidence, pre-validation confidence)`, and in particular
is never below the pre-validation rubric confidence of the same document's
OCR fields. -/
theorem validationStep_confidence_max (enable_ai : Bool)
    (valSvc : PatientInfo → ValidationCallOutcome)
    (ocr_result : PatientInfo) (ocr_method : String)
    (corrected_info : PatientInfo) (vs : ValidationSummaryS)
    (h : aiValidateExtractedData enable_ai (valSvc ocr_result) (some ocr_result)
          = some (corrected_info, vs)) :
    (validationStep enable_ai valSvc ocr_result ocr_method).2.1
        = max (calcConfidence (some corrected_info)) (calcConfidence (some ocr_result))
      ∧ calcConfidence (some ocr_result)
          ≤ (validationStep enable_ai valSvc ocr_result ocr_method).2.1 := by
  unfold validationStep
  rw [h]
  exact ⟨rfl, le_max_right _ _⟩

/-- Witness for C2 at a concrete run: the service answers but the body is
unparseable, so validation returns the fallback result and the confidence
is the max of the corrected and original rubric confidences. -/
theorem validationStep_confidence_max_witness :
    (validationStep true (fun _ => .ok none)
          ⟨some "John", some "Smith", none⟩ "pdfplumber").2.1
        = max (calcConfidence (some ⟨some "John", some "Smith", none⟩))
            (calcConfidence (some ⟨some "John", some "Smith", none⟩))
      ∧ calcConfidence (some ⟨some "John", some "Smith", none⟩)
          ≤ (validationStep true (fun _ => .ok none)
              ⟨some "John", some "Smith", none⟩ "pdfplumber").2.1 :=
  validationStep_confidence_max true (fun _ => .ok none)
    ⟨some "John", some "Smith", none⟩ "pdfplumber"
    ⟨some "John", some "Smith", none⟩ fallbackSummary rfl

/-- C6: the date-plausibility check accepts a separator-normalized string
iff it has exactly three `/`-separated integer fields and one of the two
orientations is in range: (month, day, year) when the third field has
length 4, (year, month, day) when the first does, with month in 1..12,
day in 1..31, year in 1900..2030. Consequently "13/40/1990" is rejected,
"1980-01-15" normalizes to "1980/01/15" and is accepted year-first, and
"02/30/1990" is accepted since only the coarse 1..31 day range is
checked. -/
theorem isValidDateFormat_spec :
    (∀ s, isValidDateFormat s = true ↔ DateSpecAccepted s)
      ∧ isValidDateFormat "13/40/1990" = false
      ∧ normalizeDateSeparators "1980-01-15" = "1980/01/15"
      ∧ isValidDateFormat "1980/01/15" = true
      ∧ isValidDateFormat "02/30/1990" = true := by
  refine ⟨?_, by decide, by decide, by decide, by decide⟩
  intro s
  constructor
  · intro h
    unfold isValidDateFormat at h
    split at h
    case h_2 => exact absurd h (by simp)
    case h_1 p0 p1 p2 heq =>
      split at h
      case h_2 => exact absurd h (by simp)
      case h_1 n0 n1 n2 h0 h1 h2 =>
        refine ⟨p0, p1, p2, n0, n1, n2, heq, h0, h1, h2, ?_⟩
        by_cases hA : p2.length = 4 ∧ 1 ≤ n0 ∧ n0 ≤ 12 ∧ 1 ≤ n1 ∧ n1 ≤ 31
            ∧ 1900 ≤ n2 ∧ n2 ≤ 2030
        · exact Or.inl hA
        · rw [if_neg hA] at h
          by_cases hB : p0.length = 4 ∧ 1900 ≤ n0 ∧ n0 ≤ 2030 ∧ 1 ≤ n1 ∧ n1 ≤ 12
              ∧ 1 ≤ n2 ∧ n2 ≤ 31
          · exact Or.inr hB
          · rw [if_neg hB] at h
            exact absurd h (by simp)
  · rintro ⟨p0, p1, p2, n0, n1, n2, hs, h0, h1, h2, hcase⟩
    unfold isValidDateFormat
    rcases hcase with hA | hB
    · simp only [hs, h0, h1, h2]
      rw [if_pos hA]
    · simp only [hs, h0, h1, h2]
      by_cases hA : p2.length = 4 ∧ 1 ≤ n0 ∧ n0 ≤ 12 ∧ 1 ≤ n1 ∧ n1 ≤ 31
          ∧ 1900 ≤ n2 ∧ n2 ≤ 2030
      · rw [if_pos hA]
      · rw [if_neg hA, if_pos hB]

/-- Helper: the trace of the vision branch, with its 0.6 gate. -/
theorem visionStep_trace (env : Env) (fr : PatientInfo) (fc : ℚ) (fm : String)
    (vs : Option ValidationSummaryS) (dqs : ℚ) :
    ((visionStep env fr fc fm vs dqs).trace = [.validated, .textReanalysis] ∧ ¬dqs < 6/10)
      ∨ ((visionStep env fr fc fm vs dqs).trace
            = [.validated, .textReanalysis, .visionReanalysis] ∧ dqs < 6/10) := by
  unfold visionStep
  by_cases h6 : dqs < 6/10
  · right
    refine ⟨?_, h6⟩
    rw [if_pos h6]
    split
    · split
      · rfl
      · rfl
    · rfl
  · left
    refine ⟨?_, h6⟩
    rw [if_neg h6]

/-- Helper: the possible traces of the AI block, with the quality gates
that produced them. -/
theorem aiPhase_trace_cases (env : Env) (r : PatientInfo) (m : String) :
    ((aiPhase env r m).trace = [.validated] ∧ ¬pipelineQuality env r m < 7/10)
      ∨ ((aiPhase env r m).trace = [.validated, .textReanalysis]
            ∧ pipelineQuality env r m < 7/10)
      ∨ ((aiPhase env r m).trace = [.validated, .textReanalysis, .visionReanalysis]
            ∧ pipelineQuality env r m < 7/10 ∧ pipelineQuality env r m < 6/10) := by
  simp only [aiPhase]
  split
  case isTrue h7 =>
    split
    case h_1 ai_result =>
      split
      case isTrue hc => exact Or.inr (Or.inl ⟨rfl, h7⟩)
      case isFalse hc =>
        rcases visionStep_trace env (validationStep env.enable_ai env.valSvc r m).1
            (validationStep env.enable_ai env.valSvc r m).2.1
            (validationStep env.enable_ai env.valSvc r m).2.2.1
            (validationStep env.enable_ai env.valSvc r m).2.2.2
            (dataQualityScore (validationStep env.enable_ai env.valSvc r m).2.2.2
              (validationStep env.enable_ai env.valSvc r m).2.1) with ⟨htr, h6⟩ | ⟨htr, h6⟩
        · exact Or.inr (Or.inl ⟨htr, h7⟩)
        · exact Or.inr (Or.inr ⟨htr, h7, h6⟩)
    case h_2 =>
      rcases visionStep_trace env (validationStep env.enable_ai env.valSvc r m).1
          (validationStep env.enable_ai env.valSvc r m).2.1
          (validationStep env.enable_ai env.valSvc r m).2.2.1
          (validationStep env.enable_ai env.valSvc r m).2.2.2
          (dataQualityScore (validationStep env.enable_ai env.valSvc r m).2.2.2
            (validationStep env.enable_ai env.valSvc r m).2.1) with ⟨htr, h6⟩ | ⟨htr, h6⟩
      · exact Or.inr (Or.inl ⟨htr, h7⟩)
      · exact Or.inr (Or.inr ⟨htr, h7, h6⟩)
  case isFalse h7 => exact Or.inl ⟨rfl, h7⟩

/-- Helper: the possible traces of a whole run. -/
theorem processDocument_trace_cases (env : Env) (elapsed_ms : Int) (ts : Nat) :
    (processDocument env elapsed_ms ts).2 = []
      ∨ (processDocument env elapsed_ms ts).2 = [EscStep.validated]
      ∨ (processDocument env elapsed_ms ts).2 = [EscStep.validated, EscStep.textReanalysis]
      ∨ (processDocument env elapsed_ms ts).2
          = [EscStep.validated, EscStep.textReanalysis, EscStep.visionReanalysis] := by
  simp only [processDocument]
  split
  · exact Or.inl rfl
  next text ocr_method heq =>
    split
    next hai =>
      rcases aiPhase_trace_cases env ⟨(env.extractName text).1, (env.extractName text).2,
          env.extractDob text⟩ ocr_method with ⟨htr, _⟩ | ⟨htr, _⟩ | ⟨htr, _⟩
      · exact Or.inr (Or.inl htr)
      · exact Or.inr (Or.inr (Or.inl htr))
      · exact Or.inr (Or.inr (Or.inr htr))
    next hai => exact Or.inl rfl

/-- C3: in every run, the attempted reasoning stages form one of the
ordered prefixes [], [validated], [validated, textReanalysis],
[validated, textReanalysis, visionReanalysis] — so each escalation stage
is entered at most once and in order, with no retry loop (the revalidation
of an adopted reanalysis result belongs to that reanalysis stage); text
reanalysis is attempted only when the gate quality is below 0.7, and
vision reanalysis only when text reanalysis was attempted and the quality
was below 0.7 and below 0.6. -/
theorem escalation_order :
    (∀ (env : Env) (elapsed_ms : Int) (ts : Nat),
        (processDocument env elapsed_ms ts).2 = []
          ∨ (processDocument env elapsed_ms ts).2 = [EscStep.validated]
          ∨ (processDocument env elapsed_ms ts).2
              = [EscStep.validated, EscStep.textReanalysis]
          ∨ (processDocument env elapsed_ms ts).2
              = [EscStep.validated, EscStep.textReanalysis, EscStep.visionReanalysis])
      ∧ (∀ (env : Env) (elapsed_ms : Int) (ts : Nat),
          ((processDocument env elapsed_ms ts).2).Nodup)
      ∧ (∀ (env : Env) (r : PatientInfo) (m : String),
          EscStep.textReanalysis ∈ (aiPhase env r m).trace →
            pipelineQuality env r m < 7/10)
      ∧ (∀ (env : Env) (r : PatientInfo) (m : String),
          EscStep.visionReanalysis ∈ (aiPhase env r m).trace →
            EscStep.textReanalysis ∈ (aiPhase env r m).trace
              ∧ pipelineQuality env r m < 7/10 ∧ pipelineQuality env r m < 6/10) := by
  refine ⟨processDocument_trace_cases, ?_, ?_, ?_⟩
  · intro env elapsed_ms ts
    rcases processDocument_trace_cases env elapsed_ms ts with h | h | h | h <;>
      rw [h] <;> decide
  · intro env r m hmem
    rcases aiPhase_trace_cases env r m with ⟨htr, h7⟩ | ⟨htr, h7⟩ | ⟨htr, h7, h6⟩
    · rw [htr] at hmem
      exact absurd hmem (by decide)
    · exact h7
    · exact h7
  · intro env r m hmem
    rcases aiPhase_trace_cases env r m with ⟨htr, h7⟩ | ⟨htr, h7⟩ | ⟨htr, h7, h6⟩
    · rw [htr] at hmem
      exact absurd hmem (by decide)
    · rw [htr] at hmem
      exact absurd hmem (by decide)
    · rw [htr] at hmem ⊢
      exact ⟨by decide, h7, h6⟩

/-- Environment for concrete escalation runs: the validation service
answers unparseably (fallback summary, quality 0.5) and both reanalysis
calls yield nothing, so text and then vision reanalysis are attempted
without being adopted. -/
def escWitnessEnv : Env where
  backends := ⟨["Patient record"], true, [], true, .ok ""⟩
  extractName := fun _ => (none, none)
  extractDob := fun _ => none
  enable_ai := true
  use_ai := none
  valSvc := fun _ => .ok none
  textAnalysisResult := none
  visionAnalysisResult := none

/-- Witness for C3 at a concrete run that reaches the vision stage. -/
theorem escalation_order_witness :
    EscStep.visionReanalysis ∈ (aiPhase escWitnessEnv ⟨none, none, none⟩ "pdfplumber").trace
      ∧ (EscStep.textReanalysis ∈ (aiPhase escWitnessEnv ⟨none, none, none⟩ "pdfplumber").trace
          ∧ pipelineQuality escWitnessEnv ⟨none, none, none⟩ "pdfplumber" < 7/10
          ∧ pipelineQuality escWitnessEnv ⟨none, none, none⟩ "pdfplumber" < 6/10) :=
  have hv : EscStep.visionReanalysis
      ∈ (aiPhase escWitnessEnv ⟨none, none, none⟩ "pdfplumber").trace := by
    have htr : (aiPhase escWitnessEnv ⟨none, none, none⟩ "pdfplumber").trace
        = [EscStep.validated, EscStep.textReanalysis, EscStep.visionReanalysis] := by
      norm_num [aiPhase, visionStep, validationStep, aiValidateExtractedData,
        fallbackValidationResult, fallbackFieldResult, fieldCorrection,
        dataQualityScore, calcConfidence, truthy, escWitnessEnv]
    rw [htr]
    decide
  ⟨hv, escalation_order.2.2.2 escWitnessEnv ⟨none, none, none⟩ "pdfplumber" hv⟩

/-- C4 counterexample: the pdfplumber backend extracts one page "draft"
and then raises, so its attempt fails; PyPDF2 then succeeds, but because
the text accumulator is shared, the returned text "draft\nreal\n" still
contains the failed first attempt's page text rather than only the first
successful attempt's own text "real\n". -/
theorem cascade_residue_counterexample :
    extractTextFromPdf ⟨["draft"], false, ["real"], true, .ok ""⟩
        = .ok ("draft\nreal\n", "pypdf2")
      ∧ appendPages "" ["real"] = "real\n"
      ∧ containsSub "draft".data "draft\nreal\n".data = true
      ∧ "draft\nreal\n" ≠ "real\n" :=
  ⟨rfl, rfl, by decide, by decide⟩

/-- C4 (amended): the cascade tries pdfplumber, PyPDF2 and OCR in that
fixed order; an attempt succeeds iff it completed and the trimmed
accumulated text is non-empty, and the first success is returned with its
method tag; because the accumulator is shared between the two PDF
backends, the PyPDF2 result carries any residue of a partially-failed
pdfplumber attempt, while the OCR result replaces the accumulator; when
no attempt succeeds the call raises, with the OCR installation hint
exactly when the OCR engine raised a tesseract-related error (the plain
error otherwise, provided the accumulator is empty). -/
theorem cascade_amended (b : BackendOutcome) :
    ((b.pdfplumberOk ∧ !(pyStrip (appendPages "" b.pdfplumberPages)).isEmpty) →
        extractTextFromPdf b = .ok (appendPages "" b.pdfplumberPages, "pdfplumber"))
      ∧ (¬(b.pdfplumberOk ∧ !(pyStrip (appendPages "" b.pdfplumberPages)).isEmpty) →
          (b.pypdf2Ok ∧ !(pyStrip (appendPages (appendPages "" b.pdfplumberPages)
              b.pypdf2Pages)).isEmpty) →
          extractTextFromPdf b
            = .ok (appendPages (appendPages "" b.pdfplumberPages) b.pypdf2Pages, "pypdf2"))
      ∧ (∀ s, ¬(b.pdfplumberOk ∧ !(pyStrip (appendPages "" b.pdfplumberPages)).isEmpty) →
          ¬(b.pypdf2Ok ∧ !(pyStrip (appendPages (appendPages "" b.pdfplumberPages)
              b.pypdf2Pages)).isEmpty) →
          b.ocrOutcome = .ok s →
          ((pyStrip s).isEmpty = false → extractTextFromPdf b = .ok (s, "tesseract"))
            ∧ ((pyStrip s).isEmpty = true → extractTextFromPdf b = .error .generic))
      ∧ (∀ e, ¬(b.pdfplumberOk ∧ !(pyStrip (appendPages "" b.pdfplumberPages)).isEmpty) →
          ¬(b.pypdf2Ok ∧ !(pyStrip (appendPages (appendPages "" b.pdfplumberPages)
              b.pypdf2Pages)).isEmpty) →
          b.ocrOutcome = .error e →
          (containsSub "tesseract".data (pyLower e).data = true →
              extractTextFromPdf b = .error .ocrHint)
            ∧ (containsSub "tesseract".data (pyLower e).data = false →
                (pyStrip (appendPages (appendPages "" b.pdfplumberPages)
                    b.pypdf2Pages)).isEmpty = true →
                extractTextFromPdf b = .error .generic)) := by
  refine ⟨?_, ?_, ?_, ?_⟩
  · intro h1
    simp only [extractTextFromPdf]
    rw [if_pos h1]
  · intro h1 h2
    simp only [extractTextFromPdf]
    rw [if_neg h1, if_pos h2]
  · intro s h1 h2 hocr
    constructor
    · intro hs
      simp only [extractTextFromPdf]
      rw [if_neg h1, if_neg h2, hocr]
      simp [hs]
    · intro hs
      simp only [extractTextFromPdf]
      rw [if_neg h1, if_neg h2, hocr]
      simp [hs]
  · intro e h1 h2 hocr
    constructor
    · intro htess
      simp only [extractTextFromPdf]
      rw [if_neg h1, if_neg h2, hocr]
      simp [htess]
    · intro htess hempty
      simp only [extractTextFromPdf]
      rw [if_neg h1, if_neg h2, hocr]
      simp [htess, hempty]

/-- Witness for C4 at the residue run: pdfplumber fails after one page,
PyPDF2 succeeds, and the returned text is the shared accumulator. -/
theorem cascade_amended_witness :
    extractTextFromPdf ⟨["draft"], false, ["real"], true, .ok ""⟩
      = .ok (appendPages (appendPages "" ["draft"]) ["real"], "pypdf2") :=
  (cascade_amended ⟨["draft"], false, ["real"], true, .ok ""⟩).2.1
    (by decide) (by decide)

/-- Environment of the C7 counterexample: pdfplumber completes empty,
PyPDF2 extracts a non-empty page and then raises, and OCR raises a
tesseract-related error. -/
def midCrashEnv : Env where
  backends := ⟨[], true, ["partial text"], false, .error "tesseract is not installed"⟩
  extractName := fun _ => (none, none)
  extractDob := fun _ => none
  enable_ai := false
  use_ai := none
  valSvc := fun _ => .error ()
  textAnalysisResult := none
  visionAnalysisResult := none

/-- C7 counterexample: a run in which a backend (PyPDF2) extracted
non-empty text before raising, yet the document still fails with
`success=false` because the OCR fallback raised a tesseract-related
error — so `success=false` is not reserved to the case where no backend
yields any text. -/
theorem crashed_backend_failure_counterexample :
    (processDocument midCrashEnv 0 0).1.success = false
      ∧ (pyStrip (appendPages "" midCrashEnv.backends.pypdf2Pages)).isEmpty = false := by
  constructor
  · decide
  · decide

/-- Environment modelling bytes no backend can read at all (for example
an empty byte string): every backend raises immediately with no text. -/
def totalFailEnv : Env where
  backends := ⟨[], false, [], false, .error "No document"⟩
  extractName := fun _ => (none, none)
  extractDob := fun _ => none
  enable_ai := false
  use_ai := none
  valSvc := fun _ => .error ()
  textAnalysisResult := none
  visionAnalysisResult := none

/-- C7 (amended): `success=false` occurs exactly when the extraction
cascade raises, in which case the result carries `patient_info = none`,
`confidence_score = 0` and method "error"; every run where the cascade
returns text yields `success=true`. A backend that extracts text but then
raises does not count as a successful attempt, so such text does not
guarantee `success=true` (see the counterexample). -/
theorem success_iff_extraction (env : Env) (elapsed_ms : Int) (ts : Nat) :
    (∀ text ocr_method, extractTextFromPdf env.backends = .ok (text, ocr_method) →
        (processDocument env elapsed_ms ts).1.success = true)
      ∧ (∀ err, extractTextFromPdf env.backends = .error err →
          (processDocument env elapsed_ms ts).1.success = false
            ∧ (processDocument env elapsed_ms ts).1.patient_info = none
            ∧ (processDocument env elapsed_ms ts).1.confidence_score = 0
            ∧ (processDocument env elapsed_ms ts).1.extraction_method = "error") := by
  constructor
  · intro text ocr_method h
    simp [processDocument, h]
  · intro err h
    simp [processDocument, h]

/-- Witness for C7 at the total-failure run: no backend yields text, the
cascade raises the plain error, and the result is the failure record. -/
theorem success_iff_extraction_witness :
    (processDocument totalFailEnv 0 0).1.success = false
      ∧ (processDocument totalFailEnv 0 0).1.patient_info = none
      ∧ (processDocument totalFailEnv 0 0).1.confidence_score = 0
      ∧ (processDocument totalFailEnv 0 0).1.extraction_method = "error" :=
  (success_iff_extraction totalFailEnv 0 0).2 .generic rfl

/-- C9 counterexample: two runs on identical inputs but at different
wall-clock instants differ as `ProcessingResult` values, because the
result embeds the clock-derived `timestamp` — so repeated calls are not
identical in every field. -/
theorem clock_dependence_counterexample :
    (processDocument totalFailEnv 0 0).1 ≠ (processDocument totalFailEnv 0 1).1 := by
  intro h
  have h2 := congrArg ProcessingResult.timestamp h
  exact absurd h2 (by decide)

/-- C9 (amended): given identical bytes, flags and stubbed services,
repeated runs agree on every field of the `ProcessingResult` except the
two clock-derived ones (`processing_time_ms` and `timestamp`), and on the
attempted-stage trace; runs that also share the clock readings are fully
identical. -/
theorem determinism_modulo_clock (env : Env) (e1 e2 : Int) (t1 t2 : Nat) :
    (processDocument env e1 t1).1.success = (processDocument env e2 t2).1.success
      ∧ (processDocument env e1 t1).1.message = (processDocument env e2 t2).1.message
      ∧ (processDocument env e1 t1).1.patient_info
          = (processDocument env e2 t2).1.patient_info
      ∧ (processDocument env e1 t1).1.extracted_text
          = (processDocument env e2 t2).1.extracted_text
      ∧ (processDocument env e1 t1).1.extraction_method
          = (processDocument env e2 t2).1.extraction_method
      ∧ (processDocument env e1 t1).1.confidence_score
          = (processDocument env e2 t2).1.confidence_score
      ∧ (processDocument env e1 t1).1.ai_validation
          = (processDocument env e2 t2).1.ai_validation
      ∧ (processDocument env e1 t1).2 = (processDocument env e2 t2).2 := by
  simp only [processDocument]
  split <;> exact ⟨rfl, rfl, rfl, rfl, rfl, rfl, rfl, rfl⟩

/-- Environment whose first backend immediately yields one short page. -/
def previewEnv : Env where
  backends := ⟨["hello"], true, [], true, .ok ""⟩
  extractName := fun _ => (none, none)
  extractDob := fun _ => none
  enable_ai := false
  use_ai := none
  valSvc := fun _ => .error ()
  textAnalysisResult := none
  visionAnalysisResult := none

/-- C10: on every successful run the extracted-text preview equals the
full extracted text when it has at most 500 characters, and otherwise the
first 500 characters followed by "...". -/
theorem preview_truncation (env : Env) (elapsed_ms : Int) (ts : Nat)
    (text ocr_method : String)
    (h : extractTextFromPdf env.backends = .ok (text, ocr_method)) :
    (processDocument env elapsed_ms ts).1.extracted_text
      = some (if text.length ≤ 500 then text else text.take 500 ++ "...") := by
  simp only [processDocument, h]
  by_cases h5 : text.length > 500
  · rw [if_pos h5, if_neg (by omega : ¬text.length ≤ 500)]
  · rw [if_neg h5, if_pos (by omega : text.length ≤ 500)]

/-- Witness for C10 at a concrete short-text run. -/
theorem preview_truncation_witness :
    (processDocument previewEnv 0 0).1.extracted_text
      = some (if ("hello\n").length ≤ 500 then "hello\n"
          else ("hello\n").take 500 ++ "...") :=
  preview_truncation previewEnv 0 0 "hello\n" "pdfplumber" rfl

end DocProc
